import Mathlib

/-!
Verification development for the RetailAgent Chrome extension.

Shallow embedding of the components the specification describes:
* `src/lib/ecommerce-platforms.js` — platform registry and URL matching,
* `src/lib/cache.js` — TTL response cache,
* `src/lib/gemini.js` — resilient model client (`generateContent`),
* the retry module — `calculateDelay`, `isRetryable`, `retryWithBackoff`,
  `waitForCondition`,
* `src/background/service_worker.js` — the shopping-flow orchestrator
  (`executeNextStep` branches), together with the Amazon content script's
  `GET_SEARCH_RESULTS` handler (`src/content/amazon.js`).

Machine integers are modelled as `Nat`; wall-clock instants (`Date.now()`)
are explicit `Nat` parameters; `Math.random()` draws are explicit rational
parameters in `[0, 1)`.  Asynchronous I/O (HTTP fetch, tab messaging) is
modelled by passing response functions; logging side effects that do not
influence control flow (messages, durations) are not modelled.
-/

/-! ## String containment (JavaScript `String.prototype.includes`) -/

/-- `listStartsWith l p` is true when `p` is an initial segment of `l`. -/
def listStartsWith : List Char → List Char → Bool
  | _, [] => true
  | [], _ :: _ => false
  | a :: as, b :: bs => a = b && listStartsWith as bs

/-- `listHasSub l p` is true when `p` occurs contiguously anywhere in `l`. -/
def listHasSub : List Char → List Char → Bool
  | [], p => listStartsWith [] p
  | a :: rest, p => listStartsWith (a :: rest) p || listHasSub rest p

/-- JavaScript `s.includes(p)`: substring occurrence anywhere in `s`. -/
def strHasSub (s p : String) : Bool :=
  listHasSub s.toList p.toList

/-! ## Platform registry (`src/lib/ecommerce-platforms.js`) -/

/-- An `EcommercePlatform` as far as registry lookup is concerned:
its `name` and its `config.domains` list. -/
structure Platform where
  name : String
  domains : List String
deriving DecidableEq, Repr

/-- `EcommercePlatform.matches(url)`:
`this.domains.some(domain => url.includes(domain))`. -/
def Platform.matchesUrl (p : Platform) (url : String) : Bool :=
  p.domains.any (fun domain => strHasSub url domain)

/-- The registry's `Map` of platforms, in insertion order. -/
structure Registry where
  platforms : List Platform
deriving Repr

/-- The empty registry. -/
def Registry.empty : Registry := ⟨[]⟩

/-- JavaScript `Map.set` on an association-by-name list: an existing
name keeps its position and gets the new value; a new name is appended. -/
def setPlatform : List Platform → Platform → List Platform
  | [], p => [p]
  | q :: rest, p => if q.name = p.name then p :: rest else q :: setPlatform rest p

/-- `PlatformRegistry.register(platform)`:
`this.platforms.set(platform.name, platform)`. -/
def Registry.register (r : Registry) (p : Platform) : Registry :=
  ⟨setPlatform r.platforms p⟩

/-- `PlatformRegistry.getByUrl(url)`: iterate the map's values in insertion
order and return the first platform whose `matches(url)` holds, else `null`. -/
def Registry.getByUrl (r : Registry) (url : String) : Option Platform :=
  r.platforms.find? (fun p => p.matchesUrl url)

/-- `PlatformRegistry.get(name)`: the platform registered under `name`,
or a thrown `Platform not found` error, modelled as `none`. -/
def Registry.getByName (r : Registry) (name : String) : Option Platform :=
  r.platforms.find? (fun p => p.name = name)

/-- The Amazon platform exactly as registered by the service worker
(`SWAmazonPlatform`). -/
def swAmazon : Platform :=
  ⟨"amazon", ["amazon.in", "amazon.com", "amazon.co.uk", "amazon.de", "amazon.fr"]⟩

/-- The Flipkart platform exactly as registered by the service worker
(`SWFlipkartPlatform`). -/
def swFlipkart : Platform := ⟨"flipkart", ["flipkart.com"]⟩

/-- The eBay platform exactly as registered by the service worker. -/
def swEbay : Platform := ⟨"ebay", ["ebay.com", "ebay.in"]⟩

/-- The Walmart platform exactly as registered by the service worker. -/
def swWalmart : Platform := ⟨"walmart", ["walmart.com"]⟩

/-- The registry state after the service worker's startup registrations,
in the order they appear in `service_worker.js`. -/
def swRegistry : Registry :=
  (((Registry.empty.register swAmazon).register swFlipkart).register swEbay).register
    swWalmart

/-! ## TTL cache (`src/lib/cache.js`) -/

/-- A `CacheEntry`: the stored value and its absolute expiry instant
(`Date.now() + ttl`).  Values are the raw response bodies (strings). -/
structure CacheEntry where
  data : String
  expiresAt : Nat
deriving DecidableEq, Repr

/-- The in-memory cache: a `Map` from keys to entries in insertion order,
with a maximum size of 100 entries. -/
structure Cache where
  store : List (String × CacheEntry)
  maxSize : Nat
deriving Repr

/-- The cache singleton's initial state (`new Cache()`). -/
def Cache.empty : Cache := ⟨[], 100⟩

/-- First binding of `key` in the store, if any. -/
def lookupEntry : List (String × CacheEntry) → String → Option CacheEntry
  | [], _ => none
  | (k, e) :: rest, key => if k = key then some e else lookupEntry rest key

/-- `Map.delete(key)`. -/
def removeKey : List (String × CacheEntry) → String → List (String × CacheEntry)
  | [], _ => []
  | (k, e) :: rest, key => if k = key then rest else (k, e) :: removeKey rest key

/-- `Map.set(key, entry)`: an existing key keeps its position and gets the
new entry; a new key is appended. -/
def setEntry : List (String × CacheEntry) → String → CacheEntry →
    List (String × CacheEntry)
  | [], key, e => [(key, e)]
  | (k, e0) :: rest, key, e =>
    if k = key then (key, e) :: rest else (k, e0) :: setEntry rest key e

/-- `Cache.get(key)` at instant `now`: a missing key yields `null`; an
expired entry (`now > expiresAt`, per `CacheEntry.isExpired`) is deleted and
yields `null`; otherwise the entry's data is returned.  The resulting cache
state is returned alongside. -/
def Cache.get (c : Cache) (now : Nat) (key : String) : Option String × Cache :=
  match lookupEntry c.store key with
  | none => (none, c)
  | some e =>
    if now > e.expiresAt then (none, ⟨removeKey c.store key, c.maxSize⟩)
    else (some e.data, c)

/-- `Cache.set(key, value, ttl)` at instant `now`: when the cache is full and
the key is new, the oldest (first-inserted) entry is evicted; the entry is
stored with `expiresAt = now + ttl`. -/
def Cache.set (c : Cache) (now : Nat) (key value : String) (ttl : Nat) : Cache :=
  let store₀ :=
    if c.store.length ≥ c.maxSize ∧ lookupEntry c.store key = none then
      c.store.tail
    else c.store
  ⟨setEntry store₀ key ⟨value, now + ttl⟩, c.maxSize⟩

/-! ## Resilient model client (`src/lib/gemini.js`) -/

/-- Outcome of one `fetch` of the generation endpoint for one model:
either HTTP success with a response body, or a non-OK response with an
HTTP status code and the extracted error reason. -/
inductive HttpOutcome where
  | ok (body : String)
  | err (status : Nat) (reason : String)
deriving DecidableEq, Repr

/-- A thrown JavaScript error as used by the model client: the `message`,
and the `status` / `model` fields attached before throwing. -/
structure GemError where
  message : String
  status : Option Nat
  model : Option String
deriving DecidableEq, Repr

/-- The `Error` constructed for a non-OK response:
`Gemini API Error: {status} - {reason}` with `error.status` and
`error.model` set. -/
def apiError (status : Nat) (reason : String) (model : String) : GemError :=
  ⟨"Gemini API Error: " ++ toString status ++ " - " ++ reason,
    some status, some model⟩

/-- The fallback error thrown when the candidate list is exhausted and no
quota error was recorded (`lastError` still null). -/
def allModelsFailed : GemError := ⟨"All Gemini models failed", none, none⟩

/-- `status` field of a `ModelAttemptLog` entry. -/
inductive AttemptStatus where
  | SUCCESS
  | FAILED
deriving DecidableEq, Repr

/-- One `modelAttempts` entry: model id, 1-based attempt index, outcome and
the HTTP status code when the entry comes from a non-OK response.
(The `reason` and `duration` diagnostic fields are wall-clock/log-only and
are not modelled.) -/
structure ModelAttempt where
  model : String
  attempt : Nat
  status : AttemptStatus
  statusCode : Option Nat
deriving DecidableEq, Repr

/-- Result of the model-fallback loop: the returned body or thrown error,
the accumulated `modelAttempts` log, and the number of endpoint fetches
issued. -/
structure LoopResult where
  result : Except GemError String
  attempts : List ModelAttempt
  fetches : Nat
deriving Repr

/-- The `for` loop of `generateContent` over `modelsToTry`.  `i` is the
1-based attempt index, `log` the `modelAttempts` accumulated so far and
`lastError` the last quota error.  For each model: an OK response appends a
SUCCESS entry and returns the body; a non-OK response appends a FAILED entry
with the status code, then on 429/403 records the error as `lastError` and
continues with the next model, while on any other status the thrown error is
re-caught by the loop's `catch`, which appends a second FAILED entry (no
status code) and re-throws.  An exhausted list throws `lastError`, or the
generic `All Gemini models failed` error if none was recorded. -/
def tryModelsGo (endpoint : String → HttpOutcome) :
    List String → Nat → List ModelAttempt → Option GemError → LoopResult
  | [], _, log, lastError => ⟨.error (lastError.getD allModelsFailed), log, 0⟩
  | m :: rest, i, log, _lastError =>
    match endpoint m with
    | .ok body => ⟨.ok body, log ++ [⟨m, i, .SUCCESS, none⟩], 1⟩
    | .err status reason =>
      let failLog := log ++ [⟨m, i, .FAILED, some status⟩]
      if status = 429 ∨ status = 403 then
        let r := tryModelsGo endpoint rest (i + 1) failLog (some (apiError status reason m))
        ⟨r.result, r.attempts, r.fetches + 1⟩
      else
        ⟨.error (apiError status reason m), failLog ++ [⟨m, i, .FAILED, none⟩], 1⟩

/-- Result of `generateContent`: returned body or thrown error, attempt
log, endpoint fetch count, and the response cache afterwards. -/
structure GenOutcome where
  result : Except GemError String
  attempts : List ModelAttempt
  fetches : Nat
  cache : Cache
deriving Repr

/-- The response-cache key:
`gemini:{prompt}:{systemInstruction}:{modelName || 'default'}`. -/
def geminiCacheKey (prompt sysInstr : String) (modelName : Option String) : String :=
  "gemini:" ++ prompt ++ ":" ++ sysInstr ++ ":" ++ modelName.getD "default"

/-- The response-cache TTL used on success: 2 minutes in milliseconds. -/
def geminiTTL : Nat := 2 * 60 * 1000

/-- `modelsToTry`: the provided model alone when one is given, else the
available candidate list. -/
def modelsToTry (modelName : Option String) (availableModels : List String) :
    List String :=
  match modelName with
  | some m => [m]
  | none => availableModels

/-- `generateContent(apiKey, prompt, systemInstruction, modelName)` at
instant `now`.  `availableModels` is the candidate list after the
available-models query and working-model promotion (both external I/O);
`endpoint` maps a model id to its HTTP outcome.  A fresh cache hit returns
the cached body with no fetch; otherwise the fallback loop runs over
`[modelName]` when a model is given, else over `availableModels`, and a
successful body is cached under the key with the 2-minute TTL. -/
def generateContent (endpoint : String → HttpOutcome) (now : Nat) (c : Cache)
    (availableModels : List String) (prompt sysInstr : String)
    (modelName : Option String) : GenOutcome :=
  let cacheKey := geminiCacheKey prompt sysInstr modelName
  match Cache.get c now cacheKey with
  | (some cached, c1) => ⟨.ok cached, [], 0, c1⟩
  | (none, c1) =>
    let r := tryModelsGo endpoint (modelsToTry modelName availableModels) 1 [] none
    match r.result with
    | .ok body => ⟨.ok body, r.attempts, r.fetches, c1.set now cacheKey body geminiTTL⟩
    | .error e => ⟨.error e, r.attempts, r.fetches, c1⟩

/-! ## Retry/backoff engine (the retry module) -/

/-- A thrown JavaScript error as classified by the retry engine: `name`,
`message`, and the optional `statusCode` / `status` fields. -/
structure JsError where
  name : String
  message : String
  statusCode : Option Nat
  errStatus : Option Nat
deriving DecidableEq, Repr

/-- JavaScript truthiness of a numeric field: `undefined` and `0` are
falsy. -/
def truthyNat : Option Nat → Option Nat
  | none => none
  | some n => if n = 0 then none else some n

/-- JavaScript `a || b` on the two numeric fields. -/
def jsOrNat (a b : Option Nat) : Option Nat :=
  match truthyNat a with
  | some n => some n
  | none => truthyNat b

/-- `RetryConfig`: the policy fields after constructor defaulting.
`retryableNames` stands for the constructor names in the
`retryableErrors` allow-list (the code accepts either an `instanceof`
match or an `error.name` match; both reduce to the name here). -/
structure RetryConfig where
  maxRetries : Nat
  initialDelay : ℚ
  maxDelay : ℚ
  multiplier : ℚ
  retryableNames : List String
deriving Repr

/-- `new RetryConfig({})`: `maxRetries 3`, `initialDelay 1000`,
`maxDelay 30000`, `multiplier 2`, empty allow-list. -/
def RetryConfig.default : RetryConfig := ⟨3, 1000, 30000, 2, []⟩

/-- `calculateDelay(attempt, config)` with the `Math.random()` draw `r`
made explicit: `min(initialDelay * multiplier^attempt, maxDelay)` plus the
jitter `r * 0.3 * delay`. -/
def calculateDelay (attempt : Nat) (config : RetryConfig) (r : ℚ) : ℚ :=
  let delay := min (config.initialDelay * config.multiplier ^ attempt) config.maxDelay
  delay + r * (3 / 10) * delay

/-- `isRetryable(error, config)`: network-class errors (name
`NetworkError` or a message containing `network`) are retryable; otherwise
an error carrying a (truthy) `statusCode || status` is retryable exactly
when the status is `>= 500` or `429`; otherwise a non-empty allow-list
admits errors whose name it contains; otherwise not retryable. -/
def isRetryable (e : JsError) (config : RetryConfig) : Bool :=
  if e.name = "NetworkError" || strHasSub e.message "network" then true
  else
    match jsOrNat e.statusCode e.errStatus with
    | some status => decide (status ≥ 500) || decide (status = 429)
    | none =>
      if config.retryableNames.isEmpty then false
      else config.retryableNames.contains e.name

/-- Trace of a `retryWithBackoff` run: the returned value or thrown error,
the number of invocations of the operation, and the backoff delays slept
between attempts, in order. -/
structure RetryTrace (α : Type) where
  result : Except JsError α
  calls : Nat
  delays : List ℚ
deriving Repr

/-- The loop of `retryWithBackoff`.  `op k` is the outcome of the `k`-th
invocation of the operation (0-based), `rand k` the `Math.random()` draw
for the delay after failed attempt `k`.  `attempt` is the current 0-based
attempt index and `fuel` the number of retries still allowed
(`maxRetries - attempt`).  A successful attempt returns its value; a
failure that is not retryable is thrown at once; a retryable failure with
no fuel left breaks out of the loop and the last error is thrown;
otherwise the loop sleeps `calculateDelay attempt` and retries. -/
def retryGo {α : Type} (op : Nat → Except JsError α) (config : RetryConfig)
    (rand : Nat → ℚ) : Nat → Nat → RetryTrace α
  | attempt, fuel =>
    match op attempt with
    | .ok v => ⟨.ok v, 1, []⟩
    | .error e =>
      if isRetryable e config then
        match fuel with
        | 0 => ⟨.error e, 1, []⟩
        | f + 1 =>
          let r := retryGo op config rand (attempt + 1) f
          ⟨r.result, r.calls + 1, calculateDelay attempt config (rand attempt) :: r.delays⟩
      else ⟨.error e, 1, []⟩

/-- `retryWithBackoff(fn, config)`: run the loop from attempt 0 with
`maxRetries` retries allowed. -/
def retryWithBackoff {α : Type} (op : Nat → Except JsError α)
    (config : RetryConfig) (rand : Nat → ℚ) : RetryTrace α :=
  retryGo op config rand 0 config.maxRetries

/-! ## Condition polling (`waitForCondition` in the retry module) -/

/-- JavaScript `options.x || default` for the numeric options. -/
def jsOrDefault (o : Option Nat) (d : Nat) : Nat :=
  match o with
  | some n => if n = 0 then d else n
  | none => d

/-- The generic `Error` thrown when the timeout elapses:
`Condition not met within {timeout}ms`. -/
def conditionTimeoutError (timeout : Nat) : JsError :=
  ⟨"Error", "Condition not met within " ++ toString timeout ++ "ms", none, none⟩

/-- Number of polls the `while (Date.now() - startTime < timeout)` loop
performs when the `k`-th condition evaluation happens at
`startTime + k * interval`: the number of `k` with `k * interval < timeout`,
i.e. `⌈timeout / interval⌉`. -/
def numPolls (timeout interval : Nat) : Nat :=
  (timeout + interval - 1) / interval

/-- One poll's outcome: the condition returned a truthy value, returned a
falsy value, or threw. -/
inductive PollOutcome (α : Type) where
  | truthy (a : α)
  | falsy
  | raised (e : JsError)

/-- Trace of a `waitForCondition` run: the returned value or thrown
timeout error, the number of condition evaluations, and the errors that
were caught and ignored by the empty `catch`, in order. -/
structure WaitTrace (α : Type) where
  result : Except JsError α
  polls : Nat
  swallowed : List JsError

/-- The polling loop of `waitForCondition`: `cond k` is the outcome of the
`k`-th condition evaluation, `fuel` the number of polls remaining before
the timeout.  A truthy result is returned at once; a falsy result
continues; a thrown error is caught and ignored (the loop merely
continues); exhausted fuel throws the generic timeout error. -/
def waitGo {α : Type} (cond : Nat → PollOutcome α) (timeout : Nat) :
    Nat → Nat → WaitTrace α
  | _, 0 => ⟨.error (conditionTimeoutError timeout), 0, []⟩
  | k, f + 1 =>
    match cond k with
    | .truthy a => ⟨.ok a, 1, []⟩
    | .falsy =>
      let r := waitGo cond timeout (k + 1) f
      ⟨r.result, r.polls + 1, r.swallowed⟩
    | .raised e =>
      let r := waitGo cond timeout (k + 1) f
      ⟨r.result, r.polls + 1, e :: r.swallowed⟩

/-- `waitForCondition(condition, options)`: defaults
`timeout = options.timeout || 10000`, `interval = options.interval || 500`,
then polls until a truthy result or until the timeout elapses. -/
def waitForCondition {α : Type} (cond : Nat → PollOutcome α)
    (timeoutOpt intervalOpt : Option Nat) : WaitTrace α :=
  let timeout := jsOrDefault timeoutOpt 10000
  let interval := jsOrDefault intervalOpt 500
  waitGo cond timeout 0 (numPolls timeout interval)

/-! ## Shopping-flow orchestrator (`src/background/service_worker.js`)
and the Amazon content script (`src/content/amazon.js`) -/

/-- The `currentState.status` values that occur in `service_worker.js`.
The code's status strings are exactly these — there is no `FAILED`
status value anywhere in the orchestrator. -/
inductive FlowStatus where
  | IDLE
  | SEARCHING
  | SELECTING
  | PRODUCT_PAGE
  | CHECKOUT_FLOW
  | COMPLETED
deriving DecidableEq, Repr

/-- `currentState`: the status, the parsed intent's `product` field (the
only intent field `executeNextStep` reads), and the automation tab id. -/
structure SWState where
  status : FlowStatus
  product : String
  tabId : Option Nat
deriving DecidableEq, Repr

/-- One item of the content script's search-result payload:
`{ title, link, price }`. -/
structure Item where
  title : String
  link : String
  price : String
deriving DecidableEq, Repr

/-- A raw search-result DOM element as the Amazon content script sees it:
whether it carries a sponsored marker, and the extracted title / link /
price when the corresponding selector matched. -/
structure RawResult where
  sponsored : Bool
  title : Option String
  link : Option String
  price : Option String
deriving DecidableEq, Repr

/-- The `GET_SEARCH_RESULTS` handler of `src/content/amazon.js`: sponsored
elements are skipped; a non-sponsored element contributes an item exactly
when both a title and a link were found, with price defaulting to `N/A`. -/
def getSearchResultsHandler : List RawResult → List Item
  | [] => []
  | r :: rest =>
    if r.sponsored then getSearchResultsHandler rest
    else
      match r.title, r.link with
      | some t, some l => ⟨t, l, r.price.getD "N/A"⟩ :: getSearchResultsHandler rest
      | _, _ => getSearchResultsHandler rest

/-- Outcome of the `SELECTING` branch of `executeNextStep`. -/
inductive SelectOutcome where
  | fetchFailed
  | noItems
  | noLink
  | navigated (link : String)
deriving DecidableEq, Repr

/-- The `SELECTING` branch, given the (already sponsored-filtered) items
returned by the content script: an empty list only logs
`No suitable products found.` and leaves the state untouched; otherwise
`bestItem = items[0]`; a missing/empty link logs an error and leaves the
state untouched; otherwise the status is set to `PRODUCT_PAGE` and the tab
navigates to the item's link. -/
def selectStep (st : SWState) (items : List Item) : SWState × SelectOutcome :=
  match items with
  | [] => (st, .noItems)
  | best :: _ =>
    if best.link = "" then (st, .noLink)
    else ({ st with status := .PRODUCT_PAGE }, .navigated best.link)

/-- Outcome of a `chrome.tabs.sendMessage` round-trip to the page-resident
agent: a `{ success }` response, a null/undefined response, or a thrown
error. -/
inductive MsgOutcome where
  | resp (success : Bool)
  | noResp
  | threw (e : JsError)
deriving DecidableEq, Repr

/-- Outcome of the `PRODUCT_PAGE` branch of `executeNextStep`. -/
inductive BuyOutcome where
  | proceededToCheckout
  | cartAddedManualCheckout
  | cartFailed
  | errored (e : JsError)
deriving DecidableEq, Repr

/-- The `PRODUCT_PAGE` branch: `CLICK_BUY_NOW` is sent; a successful
response sets the status to `CHECKOUT_FLOW`; otherwise `ADD_TO_CART` is
sent once as fallback, and whatever its outcome the status is left
untouched (the cart-add success is only reported in the log:
`Added to cart successfully. Please proceed to checkout manually.`).
A thrown send error is caught and logged, leaving the state untouched.
The returned `Nat` counts the `ADD_TO_CART` sends. -/
def productPageStep (st : SWState) (buy cart : MsgOutcome) :
    SWState × BuyOutcome × Nat :=
  match buy with
  | .threw e => (st, .errored e, 0)
  | .resp true => ({ st with status := .CHECKOUT_FLOW }, .proceededToCheckout, 0)
  | .resp false | .noResp =>
    match cart with
    | .resp true => (st, .cartAddedManualCheckout, 1)
    | .resp false | .noResp => (st, .cartFailed, 1)
    | .threw e => (st, .errored e, 1)

/-- Order details returned by the `GET_ORDER_DETAILS` handler. -/
structure OrderDetails where
  orderId : String
  deliveryDate : String
deriving DecidableEq, Repr

/-- Outcome of one `executeNextStep` invocation. -/
inductive StepEffect where
  | ignored
  | searched (product : String)
  | selected (o : SelectOutcome)
  | bought (o : BuyOutcome) (cartSends : Nat)
  | orderConfirmed (details : OrderDetails)
  | awaitingCheckout
  | noBranch
deriving DecidableEq, Repr

/-- The page-agent inputs an `executeNextStep` invocation may consume:
the `GET_SEARCH_RESULTS` response (`none` when both the first try and the
retry failed), the `CLICK_BUY_NOW` and `ADD_TO_CART` outcomes, and the
tab's current URL with the `GET_ORDER_DETAILS` response for the checkout
branch. -/
structure StepEnv where
  searchResults : Option (List RawResult)
  buy : MsgOutcome
  cart : MsgOutcome
  currentUrl : String
  order : OrderDetails

/-- `executeNextStep(tabId)` on a `PAGE_LOADED` signal from tab
`senderTabId`: the guard `if (tabId !== currentState.tabId) return;`
discards a signal whose tab differs from the live state's tab.  Otherwise
the branch for the current status runs: `SEARCHING` injects the search and
sets the status to `SELECTING`; `SELECTING` fetches the content script
results (a double failure only logs and returns) and runs `selectStep` on
them; `PRODUCT_PAGE` runs `productPageStep`; `CHECKOUT_FLOW` checks the
tab's URL for `thank-you` / `order-confirmation` and on a match sets the
status to `COMPLETED` and fetches the order details; `IDLE` and
`COMPLETED` match no branch. -/
def executeNextStep (st : SWState) (senderTabId : Nat) (env : StepEnv) :
    SWState × StepEffect :=
  if st.tabId = some senderTabId then
    match st.status with
    | .SEARCHING => ({ st with status := .SELECTING }, .searched st.product)
    | .SELECTING =>
      match env.searchResults with
      | none => (st, .selected .fetchFailed)
      | some results =>
        let (st2, o) := selectStep st (getSearchResultsHandler results)
        (st2, .selected o)
    | .PRODUCT_PAGE =>
      let (st2, o, sends) := productPageStep st env.buy env.cart
      (st2, .bought o sends)
    | .CHECKOUT_FLOW =>
      if strHasSub env.currentUrl "thank-you" ||
          strHasSub env.currentUrl "order-confirmation" then
        ({ st with status := .COMPLETED }, .orderConfirmed env.order)
      else (st, .awaitingCheckout)
    | .IDLE => (st, .noBranch)
    | .COMPLETED => (st, .noBranch)
  else (st, .ignored)


/-! ## Fixtures and auxiliary definitions for the claims -/

/-- The HTTP status a model's fetch produced, if it failed. -/
def statusOf (endpoint : String → HttpOutcome) (m : String) : Option Nat :=
  match endpoint m with
  | .ok _ => none
  | .err s _ => some s

/-- `m`'s fetch fails with a quota/auth-rate status (429 or 403). -/
def quotaFails (endpoint : String → HttpOutcome) (m : String) : Prop :=
  ∃ s reason, endpoint m = .err s reason ∧ (s = 429 ∨ s = 403)

/-- The `modelAttempts` entries contributed by a run of consecutive
quota-failing candidates starting at attempt index `i`. -/
def quotaLog (endpoint : String → HttpOutcome) :
    List String → Nat → List ModelAttempt
  | [], _ => []
  | p :: ps, i => ⟨p, i, .FAILED, statusOf endpoint p⟩ :: quotaLog endpoint ps (i + 1)

/-- A live flow state sitting in `SELECTING` on tab 7. -/
def c2State : SWState := ⟨.SELECTING, "Samsung phone", some 7⟩

/-- A search-results page whose only result carries a sponsored marker, so
the content script's filtered list is empty. -/
def c2Env : StepEnv :=
  ⟨some [⟨true, some "Sponsored item", some "https://www.amazon.in/sp", some "999"⟩],
    .noResp, .noResp, "https://www.amazon.in/s?k=phone", ⟨"", ""⟩⟩

/-- A search-results page with one sponsored result followed by a genuine
one, so the filtered list has the genuine item first. -/
def c2EnvOk : StepEnv :=
  ⟨some [⟨true, some "Sponsored item", some "https://www.amazon.in/sp", some "999"⟩,
      ⟨false, some "Samsung Galaxy phone", some "https://www.amazon.in/dp/A1", some "49999"⟩],
    .noResp, .noResp, "https://www.amazon.in/s?k=phone", ⟨"", ""⟩⟩

/-- A live flow state sitting on a product page on tab 7. -/
def c3State : SWState := ⟨.PRODUCT_PAGE, "Samsung phone", some 7⟩

/-- A page where `CLICK_BUY_NOW` reports failure and the `ADD_TO_CART`
fallback succeeds. -/
def c3Env : StepEnv :=
  ⟨none, .resp false, .resp true, "https://www.amazon.in/dp/X", ⟨"", ""⟩⟩

/-- An error thrown by a polled condition. -/
def c8Error : JsError := ⟨"TypeError", "page handle destroyed", none, none⟩

/-- A condition whose every evaluation throws. -/
def c8Cond : Nat → PollOutcome Unit := fun _ => .raised c8Error

/-- A live flow state bound to tab 1, and inputs for a stale signal. -/
def c9State : SWState := ⟨.SEARCHING, "Samsung phone", some 1⟩

/-- Arbitrary page-agent inputs for the stale-signal scenario. -/
def c9Env : StepEnv :=
  ⟨none, .noResp, .noResp, "https://www.amazon.in/", ⟨"", ""⟩⟩

/-- An error with no network marker, no status field, and a name outside
any allow-list: classified non-retryable. -/
def c4Error : JsError := ⟨"ValidationError", "bad input", none, none⟩

/-- A network-class error: always classified retryable. -/
def c5NetworkError : JsError := ⟨"NetworkError", "fetch failed", none, none⟩

/-- A condition that is falsy on the first poll and truthy on the second. -/
def c8CondOk : Nat → PollOutcome Nat := fun k => if k = 0 then .falsy else .truthy 42

/-- An endpoint where the two most capable models are quota-limited and
the third responds. -/
def c1Endpoint : String → HttpOutcome := fun m =>
  if m = "gemini-2.0-flash-exp" then .err 429 "quota exceeded"
  else if m = "gemini-1.5-pro" then .err 429 "quota exceeded"
  else .ok "intent json"

/-- An endpoint that always responds successfully. -/
def c7Endpoint : String → HttpOutcome := fun _ => .ok "parsed intent"

/-! ## Helper lemmas -/

theorem listStartsWith_iff (l p : List Char) :
    listStartsWith l p = true ↔ ∃ t, l = p ++ t := by
  induction p generalizing l with
  | nil =>
    simp [listStartsWith]
  | cons b bs ih =>
    cases l with
    | nil =>
      simp [listStartsWith]
    | cons a as =>
      simp only [listStartsWith, Bool.and_eq_true, decide_eq_true_eq, ih,
        List.cons_append, List.cons.injEq]
      constructor
      · rintro ⟨rfl, t, rfl⟩
        exact ⟨t, rfl, rfl⟩
      · rintro ⟨t, rfl, rfl⟩
        exact ⟨rfl, t, rfl⟩

theorem listHasSub_iff (l p : List Char) :
    listHasSub l p = true ↔ ∃ s t, l = s ++ p ++ t := by
  induction l with
  | nil =>
    simp only [listHasSub, listStartsWith_iff]
    constructor
    · rintro ⟨t, ht⟩
      exact ⟨[], t, by simpa using ht⟩
    · rintro ⟨s, t, hst⟩
      rcases List.append_eq_nil.mp (List.append_eq_nil.mp hst.symm).1 with ⟨rfl, rfl⟩
      exact ⟨t, by simpa using hst⟩
  | cons a as ih =>
    simp only [listHasSub, Bool.or_eq_true, listStartsWith_iff, ih]
    constructor
    · rintro (⟨t, ht⟩ | ⟨s, t, hst⟩)
      · exact ⟨[], t, by simpa using ht⟩
      · exact ⟨a :: s, t, by simp [hst]⟩
    · rintro ⟨s, t, hst⟩
      cases s with
      | nil => exact Or.inl ⟨t, by simpa using hst⟩
      | cons x xs =>
        simp only [List.cons_append, List.cons.injEq] at hst
        exact Or.inr ⟨xs, t, hst.2⟩

theorem strHasSub_iff (s p : String) :
    strHasSub s p = true ↔ ∃ a b, s.toList = a ++ p.toList ++ b := by
  simpa [strHasSub] using listHasSub_iff s.toList p.toList

theorem lookupEntry_setEntry (s : List (String × CacheEntry)) (key : String)
    (e : CacheEntry) : lookupEntry (setEntry s key e) key = some e := by
  induction s with
  | nil => simp [setEntry, lookupEntry]
  | cons kv rest ih =>
    obtain ⟨k, e0⟩ := kv
    by_cases h : k = key
    · simp [setEntry, lookupEntry, h]
    · simp [setEntry, lookupEntry, h, ih]

/-- A value just `set` with ttl `ttl` is returned by `get` at any instant
`now ≤ setTime + ttl`. -/
theorem Cache.get_set (c : Cache) (setTime : Nat) (key value : String)
    (ttl now : Nat) (h : now ≤ setTime + ttl) :
    (Cache.set c setTime key value ttl).get now key =
      (some value, Cache.set c setTime key value ttl) := by
  unfold Cache.set Cache.get
  simp only [lookupEntry_setEntry]
  simp [Nat.not_lt.mpr h]

/-! ## Claim theorems -/

/-- C6: `getByUrl` returns the first platform, in registration order, one
of whose domains matches the URL, and `null` when no registered platform
matches; with the service worker's registrations (Amazon and Flipkart with
non-overlapping domains), `https://www.flipkart.com/x` resolves to the
Flipkart descriptor and an unregistered domain resolves to `null`. -/
theorem C6_registry_url_resolution :
    (∀ (pre : List Platform) (p : Platform) (post : List Platform) (url : String),
      (∀ q ∈ pre, q.matchesUrl url = false) → p.matchesUrl url = true →
      Registry.getByUrl ⟨pre ++ p :: post⟩ url = some p)
    ∧ (∀ (l : List Platform) (url : String),
      (∀ q ∈ l, q.matchesUrl url = false) → Registry.getByUrl ⟨l⟩ url = none)
    ∧ Registry.getByUrl swRegistry "https://www.flipkart.com/x" = some swFlipkart
    ∧ Registry.getByUrl swRegistry "https://www.example.org/page" = none := by
  refine ⟨?_, ?_, by decide, by decide⟩
  · intro pre p post url hpre hp
    unfold Registry.getByUrl
    induction pre with
    | nil =>
      rw [List.nil_append]
      exact List.find?_cons_of_pos _ hp
    | cons q qs ih =>
      have hq : q.matchesUrl url = false := hpre q (List.mem_cons_self q qs)
      rw [List.cons_append, List.find?_cons_of_neg _ (by simp [hq])]
      exact ih (fun x hx => hpre x (List.mem_cons_of_mem q hx))
  · intro l url hl
    unfold Registry.getByUrl
    rw [List.find?_eq_none]
    intro x hx
    simp [hl x hx]

/-- C6 witness: with Amazon and then Flipkart registered,
`https://www.flipkart.com/x` resolves to Flipkart, and a Pinterest URL
resolves to `null`. -/
theorem C6_registry_url_resolution_witness :
    Registry.getByUrl ⟨[swAmazon, swFlipkart]⟩ "https://www.flipkart.com/x" =
      some swFlipkart ∧
    Registry.getByUrl ⟨[swAmazon, swFlipkart]⟩ "https://www.pinterest.com/" = none :=
  ⟨C6_registry_url_resolution.1 [swAmazon] swFlipkart [] "https://www.flipkart.com/x"
      (by decide) (by decide),
    C6_registry_url_resolution.2.1 [swAmazon, swFlipkart] "https://www.pinterest.com/"
      (by decide)⟩

/-- C10: `matches(url)` holds exactly when some registered domain occurs as
a substring anywhere in the URL string (`String.prototype.includes`), not
only in its host; hence a URL whose query string contains `flipkart.com`
resolves to the Flipkart platform. -/
theorem C10_matches_is_substring_anywhere :
    (∀ (p : Platform) (url : String),
      p.matchesUrl url = true ↔
        ∃ d ∈ p.domains, ∃ a b, url.toList = a ++ d.toList ++ b)
    ∧ Registry.getByUrl swRegistry "https://example.com/?ref=flipkart.com" =
        some swFlipkart := by
  constructor
  · intro p url
    simp [Platform.matchesUrl, List.any_eq_true, strHasSub_iff]
  · decide

/-- C9: a `PAGE_LOADED` signal whose sender tab differs from the live
state's `tabId` is discarded by `executeNextStep`'s guard: the state is
neither advanced nor mutated. -/
theorem C9_stale_signal_discarded :
    ∀ (st : SWState) (senderTabId : Nat) (env : StepEnv),
      st.tabId ≠ some senderTabId →
      executeNextStep st senderTabId env = (st, .ignored) := by
  intro st tid env h
  unfold executeNextStep
  simp [h]

/-- C9 witness: a signal from tab 2 while the flow is bound to tab 1 is
ignored and leaves the state unchanged. -/
theorem C9_stale_signal_discarded_witness :
    executeNextStep c9State 2 c9Env = (c9State, .ignored) :=
  C9_stale_signal_discarded c9State 2 c9Env (by decide)

/-- C2 counterexample: in `SELECTING`, when the sponsored-filtered result
list is empty the orchestrator does NOT fail to a `FAILED` state with
`NoResultsError` — it logs `No suitable products found.` and returns with
the state unchanged, still `SELECTING` (the status enumeration has no
`FAILED` value at all). -/
theorem C2_counterexample_no_failed_state :
    executeNextStep c2State 7 c2Env = (c2State, .selected .noItems) ∧
    (executeNextStep c2State 7 c2Env).1.status = .SELECTING :=
  ⟨rfl, rfl⟩

/-- C2 (amended): in `SELECTING`, the orchestrator selects the first entry
of the content script's sponsored-filtered result list (list order, not
price or rating), transitioning to `PRODUCT_PAGE` and navigating to its
link when the link is non-empty (an empty link only logs and leaves the
state unchanged); for an empty filtered list it logs a warning and leaves
the state unchanged — still `SELECTING`, with no `FAILED` state and no
`NoResultsError`. -/
theorem C2_amended_first_result_selection :
    ∀ (st : SWState) (tid : Nat) (env : StepEnv) (results : List RawResult),
      st.status = .SELECTING → st.tabId = some tid →
      env.searchResults = some results →
      ((getSearchResultsHandler results = [] →
          executeNextStep st tid env = (st, .selected .noItems)) ∧
        (∀ first rest, getSearchResultsHandler results = first :: rest →
          (first.link = "" → executeNextStep st tid env = (st, .selected .noLink)) ∧
          (first.link ≠ "" →
            executeNextStep st tid env =
              ({ st with status := .PRODUCT_PAGE }, .selected (.navigated first.link))))) := by
  intro st tid env results hs ht hr
  constructor
  · intro hempty
    simp [executeNextStep, ht, hs, hr, hempty, selectStep]
  · intro first rest hcons
    constructor <;> intro hlink <;>
      simp [executeNextStep, ht, hs, hr, hcons, selectStep, hlink]

/-- C2 amended witness: with one sponsored and one genuine result, the
genuine one is selected and the flow moves to `PRODUCT_PAGE`. -/
theorem C2_amended_first_result_selection_witness :
    executeNextStep c2State 7 c2EnvOk =
      (⟨.PRODUCT_PAGE, "Samsung phone", some 7⟩,
        .selected (.navigated "https://www.amazon.in/dp/A1")) :=
  ((C2_amended_first_result_selection c2State 7 c2EnvOk
        [⟨true, some "Sponsored item", some "https://www.amazon.in/sp", some "999"⟩,
          ⟨false, some "Samsung Galaxy phone", some "https://www.amazon.in/dp/A1",
            some "49999"⟩]
        rfl rfl rfl).2
      ⟨"Samsung Galaxy phone", "https://www.amazon.in/dp/A1", "49999"⟩ [] rfl).2
    (by decide)

/-- C3 counterexample: after a failed `buyNow()` and a successful fallback
`addToCart()`, the flow does NOT move to a terminal "needs manual
checkout" sub-state — the cart success is only reported in the log and the
status remains `PRODUCT_PAGE`, the same value it had before (and the
status enumeration has no such sub-state and no `FAILED` value). -/
theorem C3_counterexample_no_manual_checkout_state :
    executeNextStep c3State 7 c3Env = (c3State, .bought .cartAddedManualCheckout 1) ∧
    (executeNextStep c3State 7 c3Env).1.status = .PRODUCT_PAGE :=
  ⟨rfl, rfl⟩

/-- C3 (amended): in `PRODUCT_PAGE`, a successful `buyNow()` moves the flow
to `CHECKOUT_FLOW` with no cart call; a failed or absent `buyNow()`
response triggers exactly one `addToCart()` fallback and leaves the state
unchanged, a successful cart add being distinguished only by the logged
"proceed to checkout manually" outcome, not by a state transition; a
thrown send error is caught, leaving the state unchanged. -/
theorem C3_amended_buy_now_fallback :
    ∀ (st : SWState) (tid : Nat) (env : StepEnv),
      st.status = .PRODUCT_PAGE → st.tabId = some tid →
      ((env.buy = .resp true →
          executeNextStep st tid env =
            ({ st with status := .CHECKOUT_FLOW }, .bought .proceededToCheckout 0)) ∧
        (env.buy = .resp false ∨ env.buy = .noResp →
          (executeNextStep st tid env).1 = st ∧
          ∃ o, (executeNextStep st tid env).2 = .bought o 1 ∧
            (env.cart = .resp true → o = .cartAddedManualCheckout)) ∧
        (∀ e, env.buy = .threw e →
          executeNextStep st tid env = (st, .bought (.errored e) 0))) := by
  intro st tid env hs ht
  refine ⟨?_, ?_, ?_⟩
  · intro hbuy
    simp [executeNextStep, ht, hs, hbuy, productPageStep]
  · intro hbuy
    rcases hbuy with hbuy | hbuy <;>
      rcases hcart : env.cart with success | _ | e <;>
        first
          | (rcases success with _ | _ <;>
              simp [executeNextStep, ht, hs, hbuy, hcart, productPageStep])
          | simp [executeNextStep, ht, hs, hbuy, hcart, productPageStep]
  · intro e hbuy
    simp [executeNextStep, ht, hs, hbuy, productPageStep]

/-- C3 amended witness: failed buy-now with successful cart add leaves the
state unchanged and reports one cart send with the manual-checkout log
outcome. -/
theorem C3_amended_buy_now_fallback_witness :
    (executeNextStep c3State 7 c3Env).1 = c3State ∧
    ∃ o, (executeNextStep c3State 7 c3Env).2 = .bought o 1 ∧
      (c3Env.cart = .resp true → o = .cartAddedManualCheckout) :=
  (C3_amended_buy_now_fallback c3State 7 c3Env rfl rfl).2.1 (Or.inl rfl)

/-! ## Retry-engine lemmas -/

theorem retryGo_calls_le {α : Type} (op : Nat → Except JsError α)
    (config : RetryConfig) (rand : Nat → ℚ) :
    ∀ (fuel attempt : Nat), (retryGo op config rand attempt fuel).calls ≤ fuel + 1 := by
  intro fuel
  induction fuel with
  | zero =>
    intro a
    rw [retryGo]
    rcases h : op a with e | v
    · by_cases hr : isRetryable e config <;> simp [hr]
    · simp
  | succ f ih =>
    intro a
    rw [retryGo]
    rcases h : op a with e | v
    · by_cases hr : isRetryable e config
      · simp only [hr, if_true]
        have := ih (a + 1)
        show (retryGo op config rand (a + 1) f).calls + 1 ≤ f + 1 + 1
        omega
      · simp [hr]
    · simp

theorem retryGo_nonretryable {α : Type} (op : Nat → Except JsError α)
    (config : RetryConfig) (rand : Nat → ℚ) (e : JsError) :
    ∀ (n a fuel : Nat), n ≤ fuel →
      (∀ k, k < n → ∃ ek, op (a + k) = .error ek ∧ isRetryable ek config = true) →
      op (a + n) = .error e → isRetryable e config = false →
      (retryGo op config rand a fuel).result = .error e ∧
        (retryGo op config rand a fuel).calls = n + 1 := by
  intro n
  induction n with
  | zero =>
    intro a fuel _ _ he hnr
    rw [Nat.add_zero] at he
    rw [retryGo, he]
    cases fuel <;> simp [hnr]
  | succ m ih =>
    intro a fuel hle hpre he hnr
    obtain ⟨e0, he0, hr0⟩ := hpre 0 (Nat.succ_pos m)
    rw [Nat.add_zero] at he0
    obtain ⟨f, rfl⟩ : ∃ f, fuel = f + 1 := ⟨fuel - 1, by omega⟩
    rw [retryGo, he0]
    simp only [hr0, if_true]
    have hpre' : ∀ k, k < m → ∃ ek, op (a + 1 + k) = .error ek ∧
        isRetryable ek config = true := by
      intro k hk
      have := hpre (k + 1) (by omega)
      rwa [show a + (k + 1) = a + 1 + k by omega] at this
    have he' : op (a + 1 + m) = .error e := by
      rwa [show a + (m + 1) = a + 1 + m by omega] at he
    have h := ih (a + 1) f (by omega) hpre' he' hnr
    exact ⟨h.1, by simp [h.2]⟩

theorem retryGo_all_retryable {α : Type} (op : Nat → Except JsError α)
    (config : RetryConfig) (rand : Nat → ℚ) (e : JsError) :
    ∀ (fuel a : Nat),
      (∀ k, k ≤ fuel → ∃ ek, op (a + k) = .error ek ∧ isRetryable ek config = true) →
      op (a + fuel) = .error e →
      (retryGo op config rand a fuel).result = .error e ∧
        (retryGo op config rand a fuel).calls = fuel + 1 := by
  intro fuel
  induction fuel with
  | zero =>
    intro a hall he
    rw [Nat.add_zero] at he
    obtain ⟨e0, he0, hr0⟩ := hall 0 (Nat.le_refl 0)
    rw [Nat.add_zero] at he0
    rw [he0] at he
    obtain rfl : e0 = e := by injection he
    rw [retryGo, he0]
    simp [hr0]
  | succ f ih =>
    intro a hall he
    obtain ⟨e0, he0, hr0⟩ := hall 0 (Nat.zero_le _)
    rw [Nat.add_zero] at he0
    rw [retryGo, he0]
    simp only [hr0, if_true]
    have hall' : ∀ k, k ≤ f → ∃ ek, op (a + 1 + k) = .error ek ∧
        isRetryable ek config = true := by
      intro k hk
      have := hall (k + 1) (by omega)
      rwa [show a + (k + 1) = a + 1 + k by omega] at this
    have he' : op (a + 1 + f) = .error e := by
      rwa [show a + (f + 1) = a + 1 + f by omega] at he
    have h := ih (a + 1) hall' he'
    exact ⟨h.1, by simp [h.2]⟩

theorem retryGo_delays_get {α : Type} (op : Nat → Except JsError α)
    (config : RetryConfig) (rand : Nat → ℚ) :
    ∀ (fuel a n : Nat) (d : ℚ),
      (retryGo op config rand a fuel).delays.get? n = some d →
      d = calculateDelay (a + n) config (rand (a + n)) := by
  intro fuel
  induction fuel with
  | zero =>
    intro a n d hd
    rw [retryGo] at hd
    rcases h : op a with e | v <;> rw [h] at hd
    · by_cases hr : isRetryable e config <;> simp [hr, List.get?] at hd
    · simp [List.get?] at hd
  | succ f ih =>
    intro a n d hd
    rw [retryGo] at hd
    rcases h : op a with e | v <;> rw [h] at hd
    · by_cases hr : isRetryable e config
      · simp only [hr, if_true] at hd
        cases n with
        | zero =>
          simp only [List.get?, Option.some.injEq] at hd
          rw [Nat.add_zero]
          exact hd.symm
        | succ m =>
          simp only [List.get?] at hd
          have := ih (a + 1) m d hd
          rwa [show a + 1 + m = a + (m + 1) by omega] at this
      · simp [hr, List.get?] at hd
    · simp [List.get?] at hd

theorem retryGo_delays_length {α : Type} (op : Nat → Except JsError α)
    (config : RetryConfig) (rand : Nat → ℚ) :
    ∀ (fuel a : Nat),
      (∀ k, ∃ ek, op k = .error ek ∧ isRetryable ek config = true) →
      (retryGo op config rand a fuel).delays.length = fuel := by
  intro fuel
  induction fuel with
  | zero =>
    intro a hall
    obtain ⟨e0, he0, hr0⟩ := hall a
    rw [retryGo, he0]
    simp [hr0]
  | succ f ih =>
    intro a hall
    obtain ⟨e0, he0, hr0⟩ := hall a
    rw [retryGo, he0]
    simp only [hr0, if_true]
    show (calculateDelay a config (rand a) :: (retryGo op config rand (a + 1) f).delays).length = f + 1
    simp [ih (a + 1) hall]

theorem calculateDelay_bounds (attempt : Nat) (config : RetryConfig) (r : ℚ)
    (hi : 0 ≤ config.initialDelay) (hm : 0 ≤ config.maxDelay)
    (hmu : 0 ≤ config.multiplier) (hr0 : 0 ≤ r) (hr1 : r < 1) :
    min (config.initialDelay * config.multiplier ^ attempt) config.maxDelay ≤
      calculateDelay attempt config r ∧
    calculateDelay attempt config r ≤
      (13 / 10) * min (config.initialDelay * config.multiplier ^ attempt) config.maxDelay := by
  have hD0 : 0 ≤ min (config.initialDelay * config.multiplier ^ attempt) config.maxDelay :=
    le_min (mul_nonneg hi (pow_nonneg hmu _)) hm
  set D := min (config.initialDelay * config.multiplier ^ attempt) config.maxDelay with hD
  have hcd : calculateDelay attempt config r = D + r * (3 / 10) * D := by
    simp [calculateDelay, hD]
  constructor
  · rw [hcd]
    nlinarith [mul_nonneg (mul_nonneg hr0 (by norm_num : (0:ℚ) ≤ 3 / 10)) hD0]
  · rw [hcd]
    nlinarith [mul_nonneg hD0 (sub_nonneg.mpr hr1.le)]

/-- C4: `retryWithBackoff` invokes the operation at most `maxRetries + 1`
times; an attempt failing with an error classified non-retryable (not
network-class, no truthy status `>= 500` or `429`, name outside the call
site's allow-list) is thrown immediately with no further attempts; and
when every attempt fails with a retryable error, the last encountered
error itself is thrown, unwrapped. -/
theorem C4_retry_with_backoff_contract {α : Type} (op : Nat → Except JsError α)
    (config : RetryConfig) (rand : Nat → ℚ) :
    ((retryWithBackoff op config rand).calls ≤ config.maxRetries + 1)
    ∧ (∀ n e, n ≤ config.maxRetries →
        (∀ k, k < n → ∃ ek, op k = .error ek ∧ isRetryable ek config = true) →
        op n = .error e → isRetryable e config = false →
        (retryWithBackoff op config rand).result = .error e ∧
          (retryWithBackoff op config rand).calls = n + 1)
    ∧ (∀ e, (∀ k, k ≤ config.maxRetries →
          ∃ ek, op k = .error ek ∧ isRetryable ek config = true) →
        op config.maxRetries = .error e →
        (retryWithBackoff op config rand).result = .error e ∧
          (retryWithBackoff op config rand).calls = config.maxRetries + 1) := by
  refine ⟨retryGo_calls_le op config rand config.maxRetries 0, ?_, ?_⟩
  · intro n e hn hpre he hnr
    exact retryGo_nonretryable op config rand e n 0 config.maxRetries hn
      (by simpa using hpre) (by simpa using he) hnr
  · intro e hall he
    exact retryGo_all_retryable op config rand e config.maxRetries 0
      (by simpa using hall) (by simpa using he)

/-- C4 witness: a `ValidationError` with no status on the very first
attempt is thrown at once, after a single invocation. -/
theorem C4_retry_with_backoff_contract_witness :
    (retryWithBackoff (fun _ => (.error c4Error : Except JsError Unit))
        RetryConfig.default (fun _ => 0)).result = .error c4Error ∧
    (retryWithBackoff (fun _ => (.error c4Error : Except JsError Unit))
        RetryConfig.default (fun _ => 0)).calls = 0 + 1 :=
  (C4_retry_with_backoff_contract (fun _ => (.error c4Error : Except JsError Unit))
      RetryConfig.default (fun _ => 0)).2.1 0 c4Error (by decide)
    (fun k hk => absurd hk (by omega)) rfl (by decide)

/-- C5: the delay slept after failed attempt `n` (0-based) equals
`min(initialDelay * multiplier^n, maxDelay)` plus a random jitter of up to
30% of that value; with `maxRetries = 3, initialDelay = 1000,
multiplier = 2` (and the default `maxDelay = 30000`), the delays slept
before attempts 2, 3, 4 lie within `[base, base * 1.3]` for
`base = 1000, 2000, 4000` respectively. -/
theorem C5_backoff_delay_bounds {α : Type} (op : Nat → Except JsError α)
    (config : RetryConfig) (rand : Nat → ℚ)
    (hrand : ∀ k, 0 ≤ rand k ∧ rand k < 1)
    (hi : 0 ≤ config.initialDelay) (hm : 0 ≤ config.maxDelay)
    (hmu : 0 ≤ config.multiplier) :
    (∀ n d, (retryWithBackoff op config rand).delays.get? n = some d →
      d = calculateDelay n config (rand n) ∧
      min (config.initialDelay * config.multiplier ^ n) config.maxDelay ≤ d ∧
      d ≤ (13 / 10) * min (config.initialDelay * config.multiplier ^ n) config.maxDelay)
    ∧ (config.maxRetries = 3 → config.initialDelay = 1000 →
      config.multiplier = 2 → config.maxDelay = 30000 →
      (∀ k, ∃ ek, op k = .error ek ∧ isRetryable ek config = true) →
      ∃ d1 d2 d3, (retryWithBackoff op config rand).delays = [d1, d2, d3] ∧
        1000 ≤ d1 ∧ d1 ≤ 1300 ∧ 2000 ≤ d2 ∧ d2 ≤ 2600 ∧
        4000 ≤ d3 ∧ d3 ≤ 5200) := by
  have hchar : ∀ n d, (retryWithBackoff op config rand).delays.get? n = some d →
      d = calculateDelay n config (rand n) ∧
      min (config.initialDelay * config.multiplier ^ n) config.maxDelay ≤ d ∧
      d ≤ (13 / 10) * min (config.initialDelay * config.multiplier ^ n) config.maxDelay := by
    intro n d hd
    have hcd := retryGo_delays_get op config rand config.maxRetries 0 n d hd
    rw [Nat.zero_add] at hcd
    have hb := calculateDelay_bounds n config (rand n) hi hm hmu
      (hrand n).1 (hrand n).2
    exact ⟨hcd, by rw [hcd]; exact hb.1, by rw [hcd]; exact hb.2⟩
  refine ⟨hchar, ?_⟩
  intro hmr hid hmul hmd hall
  have hlen : (retryWithBackoff op config rand).delays.length = 3 := by
    have h := retryGo_delays_length op config rand config.maxRetries 0 hall
    rw [retryWithBackoff, h]
    exact hmr
  obtain ⟨d1, d2, d3, hds⟩ :
      ∃ d1 d2 d3, (retryWithBackoff op config rand).delays = [d1, d2, d3] := by
    rcases hl : (retryWithBackoff op config rand).delays with _ | ⟨x1, _ | ⟨x2, _ | ⟨x3, _ | ⟨x4, t⟩⟩⟩⟩ <;>
      rw [hl] at hlen <;> simp at hlen
    exact ⟨x1, x2, x3, rfl⟩
  have h1 := hchar 0 d1 (by rw [hds]; rfl)
  have h2 := hchar 1 d2 (by rw [hds]; rfl)
  have h3 := hchar 2 d3 (by rw [hds]; rfl)
  refine ⟨d1, d2, d3, hds, ?_, ?_, ?_, ?_, ?_, ?_⟩
  · have := h1.2.1
    rw [hid, hmul, hmd] at this
    simpa [min_def] using this
  · have := h1.2.2
    rw [hid, hmul, hmd] at this
    rw [show ((1000:ℚ) * 2 ^ 0) = 1000 by norm_num, show min (1000:ℚ) 30000 = 1000 by norm_num] at this
    linarith
  · have := h2.2.1
    rw [hid, hmul, hmd] at this
    rw [show ((1000:ℚ) * 2 ^ 1) = 2000 by norm_num, show min (2000:ℚ) 30000 = 2000 by norm_num] at this
    linarith
  · have := h2.2.2
    rw [hid, hmul, hmd] at this
    rw [show ((1000:ℚ) * 2 ^ 1) = 2000 by norm_num, show min (2000:ℚ) 30000 = 2000 by norm_num] at this
    linarith
  · have := h3.2.1
    rw [hid, hmul, hmd] at this
    rw [show ((1000:ℚ) * 2 ^ 2) = 4000 by norm_num, show min (4000:ℚ) 30000 = 4000 by norm_num] at this
    linarith
  · have := h3.2.2
    rw [hid, hmul, hmd] at this
    rw [show ((1000:ℚ) * 2 ^ 2) = 4000 by norm_num, show min (4000:ℚ) 30000 = 4000 by norm_num] at this
    linarith

/-- C5 witness: an operation that always fails with a network error under
the default policy sleeps exactly three delays, within the claimed
bands. -/
theorem C5_backoff_delay_bounds_witness :
    ∃ d1 d2 d3,
      (retryWithBackoff (fun _ => (.error c5NetworkError : Except JsError Unit))
          RetryConfig.default (fun _ => 0)).delays = [d1, d2, d3] ∧
      1000 ≤ d1 ∧ d1 ≤ 1300 ∧ 2000 ≤ d2 ∧ d2 ≤ 2600 ∧ 4000 ≤ d3 ∧ d3 ≤ 5200 :=
  (C5_backoff_delay_bounds (fun _ => (.error c5NetworkError : Except JsError Unit))
      RetryConfig.default (fun _ => 0) (fun _ => ⟨le_refl 0, by norm_num⟩)
      (by norm_num [RetryConfig.default]) (by norm_num [RetryConfig.default])
      (by norm_num [RetryConfig.default])).2 rfl rfl rfl rfl
    (fun _ => ⟨c5NetworkError, rfl, by decide⟩)

/-! ## Condition-polling lemmas -/

theorem waitGo_truthy {α : Type} (cond : Nat → PollOutcome α) (timeout : Nat) :
    ∀ (j f k : Nat) (a : α),
      (∀ i, i < j → ∀ b, cond (k + i) ≠ .truthy b) → cond (k + j) = .truthy a →
      j < f →
      (waitGo cond timeout k f).result = .ok a ∧
        (waitGo cond timeout k f).polls = j + 1 := by
  intro j
  induction j with
  | zero =>
    intro f k a _ hc hf
    rw [Nat.add_zero] at hc
    obtain ⟨f0, rfl⟩ : ∃ f0, f = f0 + 1 := ⟨f - 1, by omega⟩
    rw [waitGo, hc]
    exact ⟨rfl, rfl⟩
  | succ m ih =>
    intro f k a hnt hc hf
    obtain ⟨f0, rfl⟩ : ∃ f0, f = f0 + 1 := ⟨f - 1, by omega⟩
    have hnt' : ∀ i, i < m → ∀ b, cond (k + 1 + i) ≠ .truthy b := by
      intro i hi b
      have := hnt (i + 1) (by omega) b
      rwa [show k + (i + 1) = k + 1 + i by omega] at this
    have hc' : cond (k + 1 + m) = .truthy a := by
      rwa [show k + (m + 1) = k + 1 + m by omega] at hc
    have hk0 := hnt 0 (Nat.succ_pos m)
    rw [Nat.add_zero] at hk0
    have h := ih f0 (k + 1) a hnt' hc' (by omega)
    rw [waitGo]
    rcases hck : cond k with b | _ | e
    · exact absurd hck (hk0 b)
    · exact ⟨h.1, by simp [h.2]⟩
    · exact ⟨h.1, by simp [h.2]⟩

theorem waitGo_timeout {α : Type} (cond : Nat → PollOutcome α) (timeout : Nat) :
    ∀ (f k : Nat),
      (∀ i, i < f → ∀ b, cond (k + i) ≠ .truthy b) →
      (waitGo cond timeout k f).result = .error (conditionTimeoutError timeout) ∧
        (waitGo cond timeout k f).polls = f ∧
        (∀ i e, i < f → cond (k + i) = .raised e →
          e ∈ (waitGo cond timeout k f).swallowed) := by
  intro f
  induction f with
  | zero =>
    intro k _
    rw [waitGo]
    exact ⟨rfl, rfl, fun i e hi _ => absurd hi (by omega)⟩
  | succ m ih =>
    intro k hnt
    have hnt' : ∀ i, i < m → ∀ b, cond (k + 1 + i) ≠ .truthy b := by
      intro i hi b
      have := hnt (i + 1) (by omega) b
      rwa [show k + (i + 1) = k + 1 + i by omega] at this
    have h := ih (k + 1) hnt'
    have hk0 := hnt 0 (Nat.succ_pos m)
    rw [Nat.add_zero] at hk0
    rw [waitGo]
    rcases hck : cond k with b | _ | e0
    · exact absurd hck (hk0 b)
    · refine ⟨h.1, by simp [h.2.1], ?_⟩
      intro i e hi hre
      cases i with
      | zero =>
        rw [Nat.add_zero, hck] at hre
        exact absurd hre (by simp)
      | succ i0 =>
        have := h.2.2 i0 e (by omega)
          (by rwa [show k + 1 + i0 = k + (i0 + 1) by omega])
        simpa using this
    · refine ⟨h.1, by simp [h.2.1], ?_⟩
      intro i e hi hre
      cases i with
      | zero =>
        rw [Nat.add_zero, hck] at hre
        obtain rfl : e0 = e := by injection hre
        exact List.mem_cons_self _ _
      | succ i0 =>
        have := h.2.2 i0 e (by omega)
          (by rwa [show k + 1 + i0 = k + (i0 + 1) by omega])
        exact List.mem_cons_of_mem _ this

/-- C8 counterexample: a predicate that throws on every evaluation — the
two raised errors are caught by the empty `catch` and silently discarded
(they appear in no log and are never re-thrown), and `waitForCondition`
fails with the generic `Error('Condition not met within 1000ms')`, not
with the predicate's error and not with a `ConditionTimeoutError` class. -/
theorem C8_counterexample_swallowed_errors :
    waitForCondition c8Cond (some 1000) (some 500) =
      ⟨.error (conditionTimeoutError 1000), 2, [c8Error, c8Error]⟩ ∧
    conditionTimeoutError 1000 ≠ c8Error :=
  ⟨rfl, by decide⟩

/-- C8 (amended): `waitForCondition` polls the predicate at the configured
interval and returns its first truthy result; if the timeout elapses with
no truthy result it fails with the generic
`Error('Condition not met within {timeout}ms')`; but errors raised while
evaluating the predicate ARE silently discarded: the empty catch block
ignores them and merely continues polling, so a predicate error never
propagates and is recorded nowhere. -/
theorem C8_amended_wait_for_condition {α : Type} (cond : Nat → PollOutcome α)
    (timeoutOpt intervalOpt : Option Nat) :
    (∀ k a, (∀ j, j < k → ∀ b, cond j ≠ .truthy b) → cond k = .truthy a →
      k < numPolls (jsOrDefault timeoutOpt 10000) (jsOrDefault intervalOpt 500) →
      (waitForCondition cond timeoutOpt intervalOpt).result = .ok a ∧
        (waitForCondition cond timeoutOpt intervalOpt).polls = k + 1)
    ∧ ((∀ j, j < numPolls (jsOrDefault timeoutOpt 10000) (jsOrDefault intervalOpt 500) →
        ∀ b, cond j ≠ .truthy b) →
      (waitForCondition cond timeoutOpt intervalOpt).result =
        .error (conditionTimeoutError (jsOrDefault timeoutOpt 10000)) ∧
        (waitForCondition cond timeoutOpt intervalOpt).polls =
          numPolls (jsOrDefault timeoutOpt 10000) (jsOrDefault intervalOpt 500) ∧
        (∀ j e, j < numPolls (jsOrDefault timeoutOpt 10000) (jsOrDefault intervalOpt 500) →
          cond j = .raised e →
          e ∈ (waitForCondition cond timeoutOpt intervalOpt).swallowed)) := by
  constructor
  · intro k a hnt hc hk
    exact waitGo_truthy cond (jsOrDefault timeoutOpt 10000) k
      (numPolls (jsOrDefault timeoutOpt 10000) (jsOrDefault intervalOpt 500)) 0 a
      (by simpa using hnt) (by simpa using hc) hk
  · intro hnt
    have h := waitGo_timeout cond (jsOrDefault timeoutOpt 10000)
      (numPolls (jsOrDefault timeoutOpt 10000) (jsOrDefault intervalOpt 500)) 0
      (by simpa using hnt)
    exact ⟨h.1, h.2.1, fun j e hj hre => h.2.2 j e hj (by simpa using hre)⟩

/-- C8 amended witness: a condition that is falsy once and then truthy is
polled twice and its truthy value is returned. -/
theorem C8_amended_wait_for_condition_witness :
    (waitForCondition c8CondOk (some 1000) (some 500)).result = .ok 42 ∧
    (waitForCondition c8CondOk (some 1000) (some 500)).polls = 1 + 1 :=
  (C8_amended_wait_for_condition c8CondOk (some 1000) (some 500)).1 1 42
    (by
      intro j hj b
      obtain rfl : j = 0 := by omega
      simp [c8CondOk])
    (by simp [c8CondOk]) (by decide)

/-! ## Model-client lemmas -/

theorem tryModelsGo_ok_step (endpoint : String → HttpOutcome) (m : String)
    (rest : List String) (i : Nat) (log : List ModelAttempt)
    (le : Option GemError) (body : String) (h : endpoint m = .ok body) :
    tryModelsGo endpoint (m :: rest) i log le =
      ⟨.ok body, log ++ [⟨m, i, .SUCCESS, none⟩], 1⟩ := by
  rw [tryModelsGo, h]

theorem tryModelsGo_quota_step (endpoint : String → HttpOutcome) (m : String)
    (rest : List String) (i : Nat) (log : List ModelAttempt)
    (le : Option GemError) (s : Nat) (reason : String)
    (h : endpoint m = .err s reason) (hs : s = 429 ∨ s = 403) :
    tryModelsGo endpoint (m :: rest) i log le =
      ⟨(tryModelsGo endpoint rest (i + 1) (log ++ [⟨m, i, .FAILED, some s⟩])
          (some (apiError s reason m))).result,
        (tryModelsGo endpoint rest (i + 1) (log ++ [⟨m, i, .FAILED, some s⟩])
          (some (apiError s reason m))).attempts,
        (tryModelsGo endpoint rest (i + 1) (log ++ [⟨m, i, .FAILED, some s⟩])
          (some (apiError s reason m))).fetches + 1⟩ := by
  rw [tryModelsGo, h]
  simp [hs]

theorem tryModelsGo_fatal_step (endpoint : String → HttpOutcome) (m : String)
    (rest : List String) (i : Nat) (log : List ModelAttempt)
    (le : Option GemError) (s : Nat) (reason : String)
    (h : endpoint m = .err s reason) (hs : ¬(s = 429 ∨ s = 403)) :
    tryModelsGo endpoint (m :: rest) i log le =
      ⟨.error (apiError s reason m),
        (log ++ [⟨m, i, .FAILED, some s⟩]) ++ [⟨m, i, .FAILED, none⟩], 1⟩ := by
  rw [tryModelsGo, h]
  simp [hs]

theorem tryModelsGo_quota_skip (endpoint : String → HttpOutcome) (ms : List String) :
    ∀ (pre : List String) (i : Nat) (log : List ModelAttempt) (le : Option GemError),
      (∀ p ∈ pre, quotaFails endpoint p) →
      ∃ le2, tryModelsGo endpoint (pre ++ ms) i log le =
        ⟨(tryModelsGo endpoint ms (i + pre.length)
            (log ++ quotaLog endpoint pre i) le2).result,
          (tryModelsGo endpoint ms (i + pre.length)
            (log ++ quotaLog endpoint pre i) le2).attempts,
          (tryModelsGo endpoint ms (i + pre.length)
            (log ++ quotaLog endpoint pre i) le2).fetches + pre.length⟩ := by
  intro pre
  induction pre with
  | nil =>
    intro i log le _
    refine ⟨le, ?_⟩
    simp [quotaLog]
  | cons p ps ih =>
    intro i log le hq
    obtain ⟨s, reason, hep, hs⟩ := hq p (List.mem_cons_self p ps)
    rw [List.cons_append,
      tryModelsGo_quota_step endpoint p (ps ++ ms) i log le s reason hep hs]
    obtain ⟨le2, h⟩ := ih (i + 1) (log ++ [⟨p, i, .FAILED, some s⟩])
      (some (apiError s reason p)) (fun x hx => hq x (List.mem_cons_of_mem p hx))
    refine ⟨le2, ?_⟩
    rw [h]
    have hlog : (log ++ [(⟨p, i, .FAILED, some s⟩ : ModelAttempt)]) ++
        quotaLog endpoint ps (i + 1) = log ++ quotaLog endpoint (p :: ps) i := by
      have hst : statusOf endpoint p = some s := by simp [statusOf, hep]
      rw [quotaLog, hst, List.append_assoc]
      rfl
    have hidx : i + 1 + ps.length = i + (p :: ps).length := by
      simp [List.length_cons]
      omega
    rw [hlog, hidx]
    simp [Nat.add_assoc]

theorem generateContent_hit (endpoint : String → HttpOutcome) (now : Nat)
    (c : Cache) (models : List String) (prompt sysInstr : String)
    (modelName : Option String) (v : String) (c1 : Cache)
    (h : Cache.get c now (geminiCacheKey prompt sysInstr modelName) = (some v, c1)) :
    generateContent endpoint now c models prompt sysInstr modelName =
      ⟨.ok v, [], 0, c1⟩ := by
  simp only [generateContent]
  rw [h]

theorem generateContent_miss_ok (endpoint : String → HttpOutcome) (now : Nat)
    (c : Cache) (models : List String) (prompt sysInstr : String)
    (modelName : Option String) (c2 : Cache) (body : String)
    (h : Cache.get c now (geminiCacheKey prompt sysInstr modelName) = (none, c2))
    (hr : (tryModelsGo endpoint (modelsToTry modelName models)
        1 [] none).result = .ok body) :
    generateContent endpoint now c models prompt sysInstr modelName =
      ⟨.ok body,
        (tryModelsGo endpoint (modelsToTry modelName models) 1 [] none).attempts,
        (tryModelsGo endpoint (modelsToTry modelName models) 1 [] none).fetches,
        c2.set now (geminiCacheKey prompt sysInstr modelName) body geminiTTL⟩ := by
  simp only [generateContent]
  rw [h, hr]

theorem generateContent_miss_error (endpoint : String → HttpOutcome) (now : Nat)
    (c : Cache) (models : List String) (prompt sysInstr : String)
    (modelName : Option String) (c2 : Cache) (e : GemError)
    (h : Cache.get c now (geminiCacheKey prompt sysInstr modelName) = (none, c2))
    (hr : (tryModelsGo endpoint (modelsToTry modelName models)
        1 [] none).result = .error e) :
    generateContent endpoint now c models prompt sysInstr modelName =
      ⟨.error e,
        (tryModelsGo endpoint (modelsToTry modelName models) 1 [] none).attempts,
        (tryModelsGo endpoint (modelsToTry modelName models) 1 [] none).fetches,
        c2⟩ := by
  simp only [generateContent]
  rw [h, hr]

/-- C1: `generateContent` without an explicit model tries the candidates
in order: a 429/403 failure moves to the next candidate; any other non-OK
status fails the whole call immediately with that error and no further
fetch; the first successful candidate's body is returned.  With candidates
`[A, B, C]` where A and B return 429 and C returns 200, the call returns
C's body and the attempt log records exactly 3 attempts with A and B
marked FAILED. -/
theorem C1_model_fallback (endpoint : String → HttpOutcome) (now : Nat)
    (prompt sysInstr : String) :
    (∀ (pre : List String) (m : String) (rest : List String) (body : String),
      (∀ p ∈ pre, quotaFails endpoint p) → endpoint m = .ok body →
      (generateContent endpoint now Cache.empty (pre ++ m :: rest)
          prompt sysInstr none).result = .ok body ∧
        (generateContent endpoint now Cache.empty (pre ++ m :: rest)
          prompt sysInstr none).fetches = pre.length + 1)
    ∧ (∀ (pre : List String) (m : String) (rest : List String) (s : Nat)
        (reason : String),
      (∀ p ∈ pre, quotaFails endpoint p) → endpoint m = .err s reason →
      ¬(s = 429 ∨ s = 403) →
      (generateContent endpoint now Cache.empty (pre ++ m :: rest)
          prompt sysInstr none).result = .error (apiError s reason m) ∧
        (generateContent endpoint now Cache.empty (pre ++ m :: rest)
          prompt sysInstr none).fetches = pre.length + 1)
    ∧ (∀ (a b c body ra rb : String),
      endpoint a = .err 429 ra → endpoint b = .err 429 rb →
      endpoint c = .ok body →
      (generateContent endpoint now Cache.empty [a, b, c]
          prompt sysInstr none).result = .ok body ∧
        (generateContent endpoint now Cache.empty [a, b, c]
          prompt sysInstr none).attempts =
          [⟨a, 1, .FAILED, some 429⟩, ⟨b, 2, .FAILED, some 429⟩,
            ⟨c, 3, .SUCCESS, none⟩] ∧
        (generateContent endpoint now Cache.empty [a, b, c]
          prompt sysInstr none).fetches = 3) := by
  have hmiss : ∀ models : List String,
      Cache.get Cache.empty now (geminiCacheKey prompt sysInstr none) =
        (none, Cache.empty) := fun _ => rfl
  refine ⟨?_, ?_, ?_⟩
  · intro pre m rest body hpre hok
    obtain ⟨le2, hskip⟩ := tryModelsGo_quota_skip endpoint (m :: rest) pre 1 [] none hpre
    have hstep := tryModelsGo_ok_step endpoint m rest (1 + pre.length)
      ([] ++ quotaLog endpoint pre 1) le2 body hok
    have hres : (tryModelsGo endpoint (pre ++ m :: rest) 1 [] none).result = .ok body := by
      rw [hskip]
      show (tryModelsGo endpoint (m :: rest) (1 + pre.length)
        ([] ++ quotaLog endpoint pre 1) le2).result = .ok body
      rw [hstep]
    have hfet : (tryModelsGo endpoint (pre ++ m :: rest) 1 [] none).fetches =
        pre.length + 1 := by
      rw [hskip]
      show (tryModelsGo endpoint (m :: rest) (1 + pre.length)
        ([] ++ quotaLog endpoint pre 1) le2).fetches + pre.length = pre.length + 1
      rw [hstep]
      show 1 + pre.length = pre.length + 1
      omega
    have hgen := generateContent_miss_ok endpoint now Cache.empty (pre ++ m :: rest)
      prompt sysInstr none Cache.empty body (hmiss (pre ++ m :: rest)) hres
    constructor
    · rw [hgen]
    · rw [hgen]
      exact hfet
  · intro pre m rest s reason hpre herr hs
    obtain ⟨le2, hskip⟩ := tryModelsGo_quota_skip endpoint (m :: rest) pre 1 [] none hpre
    have hstep := tryModelsGo_fatal_step endpoint m rest (1 + pre.length)
      ([] ++ quotaLog endpoint pre 1) le2 s reason herr hs
    have hres : (tryModelsGo endpoint (pre ++ m :: rest) 1 [] none).result =
        .error (apiError s reason m) := by
      rw [hskip]
      show (tryModelsGo endpoint (m :: rest) (1 + pre.length)
        ([] ++ quotaLog endpoint pre 1) le2).result = .error (apiError s reason m)
      rw [hstep]
    have hfet : (tryModelsGo endpoint (pre ++ m :: rest) 1 [] none).fetches =
        pre.length + 1 := by
      rw [hskip]
      show (tryModelsGo endpoint (m :: rest) (1 + pre.length)
        ([] ++ quotaLog endpoint pre 1) le2).fetches + pre.length = pre.length + 1
      rw [hstep]
      show 1 + pre.length = pre.length + 1
      omega
    have hgen := generateContent_miss_error endpoint now Cache.empty (pre ++ m :: rest)
      prompt sysInstr none Cache.empty (apiError s reason m)
      (hmiss (pre ++ m :: rest)) hres
    constructor
    · rw [hgen]
    · rw [hgen]
      exact hfet
  · intro a b c body ra rb hA hB hC
    have h1 := tryModelsGo_quota_step endpoint a [b, c] 1 [] none 429 ra hA
      (Or.inl rfl)
    have h2 := tryModelsGo_quota_step endpoint b [c] (1 + 1)
      ([] ++ [(⟨a, 1, .FAILED, some 429⟩ : ModelAttempt)])
      (some (apiError 429 ra a)) 429 rb hB (Or.inl rfl)
    have h3 := tryModelsGo_ok_step endpoint c [] (1 + 1 + 1)
      (([] ++ [(⟨a, 1, .FAILED, some 429⟩ : ModelAttempt)]) ++
        [(⟨b, 1 + 1, .FAILED, some 429⟩ : ModelAttempt)])
      (some (apiError 429 rb b)) body hC
    have hloop : tryModelsGo endpoint [a, b, c] 1 [] none =
        ⟨.ok body, [⟨a, 1, .FAILED, some 429⟩, ⟨b, 2, .FAILED, some 429⟩,
          ⟨c, 3, .SUCCESS, none⟩], 3⟩ := by
      rw [h1, h2, h3]
      simp
    have hres : (tryModelsGo endpoint [a, b, c] 1 [] none).result = .ok body := by
      rw [hloop]
    have hgen := generateContent_miss_ok endpoint now Cache.empty [a, b, c]
      prompt sysInstr none Cache.empty body (hmiss [a, b, c]) hres
    refine ⟨by rw [hgen], ?_, ?_⟩
    · rw [hgen]
      show (tryModelsGo endpoint [a, b, c] 1 [] none).attempts = _
      rw [hloop]
    · rw [hgen]
      show (tryModelsGo endpoint [a, b, c] 1 [] none).fetches = 3
      rw [hloop]

/-- C1 witness: with the two most capable models quota-limited and the
third succeeding, the call returns the third's body and logs exactly three
attempts, the first two FAILED with status 429. -/
theorem C1_model_fallback_witness :
    (generateContent c1Endpoint 0 Cache.empty
        ["gemini-2.0-flash-exp", "gemini-1.5-pro", "gemini-1.5-flash"]
        "buy a phone" "sys" none).result = .ok "intent json" ∧
    (generateContent c1Endpoint 0 Cache.empty
        ["gemini-2.0-flash-exp", "gemini-1.5-pro", "gemini-1.5-flash"]
        "buy a phone" "sys" none).attempts =
      [⟨"gemini-2.0-flash-exp", 1, .FAILED, some 429⟩,
        ⟨"gemini-1.5-pro", 2, .FAILED, some 429⟩,
        ⟨"gemini-1.5-flash", 3, .SUCCESS, none⟩] ∧
    (generateContent c1Endpoint 0 Cache.empty
        ["gemini-2.0-flash-exp", "gemini-1.5-pro", "gemini-1.5-flash"]
        "buy a phone" "sys" none).fetches = 3 :=
  (C1_model_fallback c1Endpoint 0 "buy a phone" "sys").2.2
    "gemini-2.0-flash-exp" "gemini-1.5-pro" "gemini-1.5-flash"
    "intent json" "quota exceeded" "quota exceeded" (by decide) (by decide) (by decide)

/-- C7: a `generateContent` call that misses the response cache and
succeeds stores the body under the exact prompt/system-instruction/model
key with the 2-minute TTL; a second invocation with the identical
arguments within that TTL returns the cached body with zero endpoint
fetches and an untouched cache. -/
theorem C7_response_cache_idempotent (endpoint : String → HttpOutcome)
    (t t2 : Nat) (c : Cache) (models : List String) (prompt sysInstr : String)
    (modelName : Option String) (body : String)
    (hmiss : (Cache.get c t (geminiCacheKey prompt sysInstr modelName)).1 = none)
    (hok : (generateContent endpoint t c models prompt sysInstr modelName).result =
      .ok body)
    (ht : t2 ≤ t + geminiTTL) :
    generateContent endpoint t2
        (generateContent endpoint t c models prompt sysInstr modelName).cache
        models prompt sysInstr modelName =
      ⟨.ok body, [], 0,
        (generateContent endpoint t c models prompt sysInstr modelName).cache⟩ := by
  obtain ⟨c2, hmiss2⟩ : ∃ c2,
      Cache.get c t (geminiCacheKey prompt sysInstr modelName) = (none, c2) := by
    rcases hp : Cache.get c t (geminiCacheKey prompt sysInstr modelName) with ⟨v, cc⟩
    rw [hp] at hmiss
    obtain rfl : v = none := hmiss
    exact ⟨cc, rfl⟩
  rcases hr : (tryModelsGo endpoint (modelsToTry modelName models) 1 [] none).result
    with e | b
  · have hgen := generateContent_miss_error endpoint t c models prompt sysInstr
      modelName c2 e hmiss2 hr
    rw [hgen] at hok
    exact absurd hok (by simp)
  · have hgen := generateContent_miss_ok endpoint t c models prompt sysInstr
      modelName c2 b hmiss2 hr
    have hb : b = body := by
      rw [hgen] at hok
      simpa using hok
    subst hb
    have hcache : (generateContent endpoint t c models prompt sysInstr modelName).cache =
        c2.set t (geminiCacheKey prompt sysInstr modelName) b geminiTTL := by
      rw [hgen]
    have hget2 := Cache.get_set c2 t (geminiCacheKey prompt sysInstr modelName) b
      geminiTTL t2 ht
    have hhit := generateContent_hit endpoint t2
      (c2.set t (geminiCacheKey prompt sysInstr modelName) b geminiTTL) models
      prompt sysInstr modelName b
      (c2.set t (geminiCacheKey prompt sysInstr modelName) b geminiTTL) hget2
    rw [hcache, hhit]

/-- C7 witness: a successful first call at time 0 and a repeat at time
60000 (within the 2-minute TTL) — the second returns the cached body with
zero fetches. -/
theorem C7_response_cache_idempotent_witness :
    generateContent c7Endpoint 60000
        (generateContent c7Endpoint 0 Cache.empty ["gemini-pro"]
          "buy a phone" "sys" none).cache
        ["gemini-pro"] "buy a phone" "sys" none =
      ⟨.ok "parsed intent", [], 0,
        (generateContent c7Endpoint 0 Cache.empty ["gemini-pro"]
          "buy a phone" "sys" none).cache⟩ :=
  C7_response_cache_idempotent c7Endpoint 0 60000 Cache.empty ["gemini-pro"]
    "buy a phone" "sys" none "parsed intent" rfl rfl (by norm_num [geminiTTL])
